import Mathlib

/-!
Shallow embedding of the mockoon-config-generator aggregation/validation core:
`validators.ts` (validateUUID / isValidUUIDFormat), the feature processor
(`processFeatures`), the data processor (`processData`), the global processor
(`processGlobalConfig`) and the document assembler (`generateConfig`).

JavaScript plain data values are modelled by the inductive `JVal`; objects are
association lists of string keys in insertion order (JS objects cannot carry
duplicate keys).
-/

namespace Mockoon

/-- A JavaScript plain-data value: `undefined`, `null`, booleans, numbers,
strings, arrays and objects (fields in insertion order). -/
inductive JVal where
  | undef
  | null
  | bool (b : Bool)
  | num (n : Int)
  | str (s : String)
  | arr (elems : List JVal)
  | obj (fields : List (String × JVal))
deriving Repr

namespace JVal

/-- JS truthiness: `undefined`, `null`, `false`, `0` and `""` are falsy,
everything else (including every array and object) is truthy. -/
def truthy : JVal → Bool
  | .undef => false
  | .null => false
  | .bool b => b
  | .num n => n != 0
  | .str s => !(s == "")
  | .arr _ => true
  | .obj _ => true

end JVal

/-- First-match lookup of a key in an object's field list (JS objects have
unique keys, so first-match is the lookup). -/
def lookupField : List (String × JVal) → String → Option JVal
  | [], _ => none
  | (k, v) :: rest, key => if k = key then some v else lookupField rest key

/-- JS property access `o[key]`: `undefined` when the receiver is not an
object or the key is absent. -/
def jsGet (v : JVal) (key : String) : JVal :=
  match v with
  | .obj fs =>
    match lookupField fs key with
    | some w => w
    | none => JVal.undef
  | _ => JVal.undef

/-- JS assignment of a key in an object literal: overwrites the value of the
key in place when the key exists (JS objects carry each key once), appends
the field otherwise. -/
def setField : List (String × JVal) → String → JVal → List (String × JVal)
  | [], key, v => [(key, v)]
  | (k0, v0) :: rest, key, v =>
    if k0 = key then (key, v) :: rest else (k0, v0) :: setField rest key v

mutual

/-- JS `ToString` coercion, as applied by `RegExp.test` and by template
literals in the error messages of `validators.ts`. Arrays stringify as the
comma-separated coercion of their elements (`null`/`undefined` elements
contribute the empty string); plain objects stringify to `[object Object]`. -/
def jsToString : JVal → String
  | .undef => "undefined"
  | .null => "null"
  | .bool b => if b then "true" else "false"
  | .num n => toString n
  | .str s => s
  | .arr elems => jsToStringArr elems
  | .obj _ => "[object Object]"
termination_by structural v => v

/-- `Array.prototype.toString`: elements joined with `,`, where `null` and
`undefined` elements contribute the empty string. -/
def jsToStringArr : List JVal → String
  | [] => ""
  | [.undef] => ""
  | [.null] => ""
  | [x] => jsToString x
  | .undef :: xs => "," ++ jsToStringArr xs
  | .null :: xs => "," ++ jsToStringArr xs
  | x :: xs => jsToString x ++ "," ++ jsToStringArr xs
termination_by structural xs => xs

end

/-- A hexadecimal digit as accepted by the case-insensitive character class
`[0-9a-f]` of the UUID regular expression in `validators.ts`. -/
def isUuidHexDigit (c : Char) : Bool :=
  (('0' ≤ c) && (c ≤ '9')) || (('a' ≤ c) && (c ≤ 'f')) || (('A' ≤ c) && (c ≤ 'F'))

/-- Split a character list into the maximal groups separated by `-`
(`n` separators yield `n + 1` groups, empty groups included). -/
def splitOnDash : List Char → List (List Char)
  | [] => [[]]
  | c :: rest =>
    if c = '-' then [] :: splitOnDash rest
    else
      match splitOnDash rest with
      | g :: gs => (c :: g) :: gs
      | [] => [[c]]

/-- `isValidUUIDFormat` from `validators.ts`: the string matches
`/^[0-9a-f]{8}-[0-9a-f]{4}-[0-9a-f]{4}-[0-9a-f]{4}-[0-9a-f]{12}$/i`,
i.e. it splits on `-` into groups of lengths 8, 4, 4, 4, 12 whose characters
are all (case-insensitive) hexadecimal digits. -/
def isValidUUIDFormat (s : String) : Bool :=
  let groups := splitOnDash s.toList
  (groups.map (fun g => g.length) == [8, 4, 4, 4, 12])
    && groups.all (fun g => g.all isUuidHexDigit)

/-- The five keys whose values `validateUUID` descends into. -/
def isDescentKey (k : String) : Bool :=
  k == "responses" || k == "children" || k == "data" || k == "routes" || k == "folders"

mutual

/-- `validateUUID` from `validators.ts`. A falsy argument returns at once.
An object carrying a `uuid` key fails with `Missing UUID in <path>` when the
value is falsy and with `Invalid UUID format in <path>: <value>` when it does
not match the UUID pattern. Arrays are then visited element-wise with the
index appended to the path; objects recurse into the five schema keys
(`responses`, `children`, `data`, `routes`, `folders`) in field order.
Success is a silent `.ok ()`. -/
def validateUUID (obj : JVal) (path : String) : Except String Unit :=
  if !obj.truthy then .ok ()
  else
    match obj with
    | .obj fs =>
      match lookupField fs "uuid" with
      | some u =>
        if !u.truthy then .error ("Missing UUID in " ++ path)
        else if !isValidUUIDFormat (jsToString u) then
          .error ("Invalid UUID format in " ++ path ++ ": " ++ jsToString u)
        else validateFields fs path
      | none => validateFields fs path
    | .arr elems => validateElems elems path 0
    | _ => .ok ()
termination_by structural obj

/-- Element-wise visit of an array by `validateUUID`, annotating the path
with the element index. -/
def validateElems : List JVal → String → Nat → Except String Unit
  | [], _, _ => .ok ()
  | x :: xs, path, i =>
    match validateUUID x (path ++ "[" ++ toString i ++ "]") with
    | .error e => .error e
    | .ok () => validateElems xs path (i + 1)
termination_by structural xs _ _ => xs

/-- `for (const key in obj)` in `validateUUID`: recurse into the five
descent keys, in field order. -/
def validateFields : List (String × JVal) → String → Except String Unit
  | [], _ => .ok ()
  | (k, v) :: rest, path =>
    if isDescentKey k then
      match validateUUID v (path ++ "." ++ k) with
      | .error e => .error e
      | .ok () => validateFields rest path
    else validateFields rest path
termination_by structural fs _ => fs

end

/-! ## Feature tree loader (`processFeatures`, feature-processor)

The filesystem and module-loader collaborators are abstracted away: a feature
subdirectory is given by its name, the loaded `folder.js` record when that
file exists, and the loaded records of its `.js` route files (excluding
`folder.js`), in filesystem enumeration order. -/

/-- One immediate subdirectory of the `features` directory, as seen through
the filesystem/module-loader collaborators. -/
structure FeatureDir where
  dirName : String
  /-- the record exported by `folder.js`, when that file exists -/
  folderDef : Option JVal
  /-- `(file name, exported record)` for each `.js` file other than
  `folder.js`, in filesystem enumeration order -/
  routeFiles : List (String × JVal)

/-- A JS word character (`\w`, i.e. `[A-Za-z0-9_]`). -/
def isWordChar (c : Char) : Bool :=
  c.isAlpha || c.isDigit || c = '_'

/-- `.replace(/\b\w/g, (l) => l.toUpperCase())`: upcase every word character
that starts a word (its predecessor is absent or not a word character).
The boolean argument records whether the previous character was a word
character. -/
def upcaseWordStarts : List Char → Bool → List Char
  | [], _ => []
  | c :: rest, prevWord =>
    (if isWordChar c && !prevWord then c.toUpper else c)
      :: upcaseWordStarts rest (isWordChar c)

/-- The synthesized folder name: first every hyphen is replaced by a space
(the global hyphen replace), then `.replace(/\b\w/g, (l) => l.toUpperCase())`
(kebab-case to Title Case). -/
def kebabToTitleCase (dirName : String) : String :=
  String.mk (upcaseWordStarts (dirName.toList.map fun c => if c = '-' then ' ' else c) false)

/-- The folder record before any route processing: the loaded `folder.js`
record when the file exists, otherwise the synthesized
`{ name: <Title Case dir name>, children: [] }` (note: no `uuid` field). -/
def initialFolder (fd : FeatureDir) : JVal :=
  match fd.folderDef with
  | some f => f
  | none => .obj [("name", .str (kebabToTitleCase fd.dirName)), ("children", .arr [])]

/-- The `{ type: "route", uuid: routeConfig.uuid }` ChildRef pushed onto the
folder's children for one route. -/
def routeChildRef (route : JVal) : JVal :=
  .obj [("type", .str "route"), ("uuid", jsGet route "uuid")]

/-- `folder.children.push(ref)`: appends to the folder's `children` array;
a missing or non-array `children` raises a `TypeError` (modelled as an
error value; the JS wording depends on the actual value). -/
def pushChild (folder ref : JVal) : Except String JVal :=
  match folder with
  | .obj fs =>
    match lookupField fs "children" with
    | some (.arr kids) => .ok (.obj (setField fs "children" (.arr (kids ++ [ref]))))
    | _ => .error "TypeError: folder.children.push is not a function"
  | _ => .error "TypeError: cannot read folder.children"

/-- The response check of the route loop: `if (routeConfig.responses)` then
`for (const response of routeConfig.responses)`, throwing
`Missing UUID in response for route <dir>/<file>` at the first response with
a falsy `uuid`. A falsy `responses` is skipped; a truthy non-array value is
not iterable in JS — a truthy string iterates its characters, whose `uuid`
is `undefined`, other truthy values raise a `TypeError`. -/
def checkResponses (dirName fileName : String) (route : JVal) : Except String Unit :=
  match jsGet route "responses" with
  | .arr resps => checkRespList dirName fileName resps
  | other =>
    if !other.truthy then .ok ()
    else match other with
      | .str _ => .error ("Missing UUID in response for route " ++ dirName ++ "/" ++ fileName)
      | _ => .error "TypeError: routeConfig.responses is not iterable"
where
  checkRespList (dirName fileName : String) : List JVal → Except String Unit
    | [] => .ok ()
    | r :: rs =>
      if !(jsGet r "uuid").truthy then
        .error ("Missing UUID in response for route " ++ dirName ++ "/" ++ fileName)
      else checkRespList dirName fileName rs

/-- The inner loop of `processFeatures` over the route files of one feature
directory: validate each route's `uuid` and its responses' `uuid`s, push a
route ChildRef onto the folder, and collect the routes in file order. -/
def processRouteFiles (dirName : String) (folder : JVal) :
    List (String × JVal) → Except String (JVal × List JVal)
  | [] => .ok (folder, [])
  | (fileName, route) :: rest =>
    if !(jsGet route "uuid").truthy then
      .error ("Missing UUID in route config for " ++ dirName ++ "/" ++ fileName)
    else
      match checkResponses dirName fileName route with
      | .error e => .error e
      | .ok () =>
        match pushChild folder (routeChildRef route) with
        | .error e => .error e
        | .ok folder' =>
          match processRouteFiles dirName folder' rest with
          | .error e => .error e
          | .ok (folderFin, routes) => .ok (folderFin, route :: routes)

/-- Processing of one feature subdirectory: take the loaded or synthesized
folder record, throw `Missing UUID in folder config for <dir>` when its
`uuid` is falsy, then process the route files. Returns the completed folder
and the routes of this directory. -/
def processFeatureDir (fd : FeatureDir) : Except String (JVal × List JVal) :=
  let folder := initialFolder fd
  if !(jsGet folder "uuid").truthy then
    .error ("Missing UUID in folder config for " ++ fd.dirName)
  else processRouteFiles fd.dirName folder fd.routeFiles

/-- `processFeatures` from the feature processor: `none` models an absent
`features` directory (returning empty folder and route lists); otherwise
each subdirectory is processed in enumeration order, folders and routes
accumulated in that order. -/
def processFeatures : Option (List FeatureDir) → Except String (List JVal × List JVal)
  | none => .ok ([], [])
  | some dirs => processFeatureDirs dirs
where
  processFeatureDirs : List FeatureDir → Except String (List JVal × List JVal)
    | [] => .ok ([], [])
    | fd :: rest =>
      match processFeatureDir fd with
      | .error e => .error e
      | .ok (folder, routes) =>
        match processFeatureDirs rest with
        | .error e => .error e
        | .ok (folders, moreRoutes) => .ok (folder :: folders, routes ++ moreRoutes)

/-! ## Data bucket loader (`processData`, data-processor.ts) -/

/-- `processData` from `data-processor.ts`: `none` models an absent `data`
directory (returning the empty list); otherwise each `.js` file's record is
checked for a truthy `uuid` — the `Missing UUID in databucket config for
<file>` error is caught and re-thrown wrapped with the file name — and the
records are accumulated in file order. -/
def processData : Option (List (String × JVal)) → Except String (List JVal)
  | none => .ok []
  | some files => processDataFiles files
where
  processDataFiles : List (String × JVal) → Except String (List JVal)
    | [] => .ok []
    | (fileName, bucket) :: rest =>
      if !(jsGet bucket "uuid").truthy then
        .error ("Error processing data file " ++ fileName
          ++ ": Missing UUID in databucket config for " ++ fileName)
      else
        match processDataFiles rest with
        | .error e => .error e
        | .ok buckets => .ok (bucket :: buckets)

/-! ## Global settings loader (`processGlobalConfig`, global-processor) -/

/-- `processGlobalConfig` from the global processor: `loaded` is the record
exported by `global.js` when that file exists. An absent file throws
`global.js not found at path: <path>` (outside the `try`, so unwrapped); a
loaded record with falsy `uuid` throws `Missing UUID in global config`,
which the surrounding `catch` re-throws wrapped with the
`Error processing global config: ` context; otherwise the record is
returned unchanged. -/
def processGlobalConfig (globalPath : String) (loaded : Option JVal) :
    Except String JVal :=
  match loaded with
  | none => .error ("global.js not found at path: " ++ globalPath)
  | some globalConfig =>
    if !(jsGet globalConfig "uuid").truthy then
      .error "Error processing global config: Missing UUID in global config"
    else .ok globalConfig

/-! ## Document assembler (`generateConfig`, config-generator.ts) -/

/-- The `{ type: "folder", uuid: folder.uuid }` root reference created for
each top-level folder. -/
def folderChildRef (folder : JVal) : JVal :=
  .obj [("type", .str "folder"), ("uuid", jsGet folder "uuid")]

/-- The fields contributed by spreading a value into an object literal
(`{ ...globalConfig, ... }`): an object's own fields; a string spreads to
its index-keyed characters, an array to its index-keyed elements; other
primitives contribute nothing. -/
def spreadFields : JVal → List (String × JVal)
  | .obj fs => fs
  | .str s => (List.range s.length).zip (s.toList.map fun c => JVal.str (String.mk [c]))
      |>.map fun p => (toString p.1, p.2)
  | .arr xs => ((List.range xs.length).zip xs).map fun p => (toString p.1, p.2)
  | _ => []

/-- `generateConfig` from `config-generator.ts`: builds `rootChildren` as one
folder ChildRef per folder (in order), then assembles
`{ ...globalConfig, folders, routes, data: databuckets, rootChildren }`.
No other processing is applied — in particular the routes are placed in the
document exactly as given. -/
def generateConfig (globalConfig : JVal) (folders routes databuckets : List JVal) :
    JVal :=
  let rootChildren := folders.map folderChildRef
  .obj (setField (setField (setField (setField (spreadFields globalConfig)
    "folders" (.arr folders))
    "routes" (.arr routes))
    "data" (.arr databuckets))
    "rootChildren" (.arr rootChildren))

/-! ## Auxiliary definitions used by the statements -/

/-- JS array indexing `a[i]` (out of range and non-arrays give `undefined`). -/
def arrIdx (v : JVal) (i : Nat) : JVal :=
  match v with
  | .arr elems =>
    match elems.get? i with
    | some w => w
    | none => JVal.undef
  | _ => JVal.undef

/-- Whether a value is a JS string. -/
def JVal.isStringVal : JVal → Bool
  | .str _ => true
  | _ => false

mutual

/-- Whether a value carries a `uuid` key anywhere along the traversal of
`validateUUID`: at the value itself (when it is an object), inside any array
element, or inside the value of any of the five descent keys. -/
def hasUuidDeep : JVal → Bool
  | .obj fs => (lookupField fs "uuid").isSome || fieldsHaveUuid fs
  | .arr elems => elemsHaveUuid elems
  | _ => false
termination_by structural v => v

/-- `hasUuidDeep` over the elements of an array. -/
def elemsHaveUuid : List JVal → Bool
  | [] => false
  | x :: xs => hasUuidDeep x || elemsHaveUuid xs
termination_by structural xs => xs

/-- `hasUuidDeep` over an object's fields, restricted to the descent keys. -/
def fieldsHaveUuid : List (String × JVal) → Bool
  | [] => false
  | (k, v) :: rest => (isDescentKey k && hasUuidDeep v) || fieldsHaveUuid rest
termination_by structural fs => fs

end

mutual

/-- A size measure on `JVal` used for induction over the traversal. -/
def jsize : JVal → Nat
  | .arr elems => 1 + jsizeElems elems
  | .obj fields => 1 + jsizeFields fields
  | _ => 1
termination_by structural v => v

/-- Size of an array's elements. -/
def jsizeElems : List JVal → Nat
  | [] => 0
  | x :: xs => 1 + jsize x + jsizeElems xs
termination_by structural xs => xs

/-- Size of an object's fields. -/
def jsizeFields : List (String × JVal) → Nat
  | [] => 0
  | (_, v) :: rest => 1 + jsize v + jsizeFields rest
termination_by structural fs => fs

end

/-! ## Concrete records used in counterexamples and witnesses

These mirror the example configuration the tool itself generates
(`generateExampleConfig` in `main.ts`) and the documented record shapes. -/

/-- A response with `bodyType: "INLINE"` and a structured (object) body, as
in the tool's own generated example GET route. -/
def exampleInlineResponse : JVal :=
  .obj [("uuid", .str "5440c285-3482-48a3-b266-32b03ab5f269"),
        ("body", .obj [("message", .str "This is an example response")]),
        ("latency", .num 0),
        ("statusCode", .num 200),
        ("label", .str "Success"),
        ("headers", .arr []),
        ("bodyType", .str "INLINE"),
        ("rules", .arr []),
        ("rulesOperator", .str "OR"),
        ("default", .bool true)]

/-- The example GET route carrying `exampleInlineResponse`. -/
def exampleInlineRoute : JVal :=
  .obj [("uuid", .str "e17b35bc-24b7-4e6e-a4d9-a08278d7bd98"),
        ("type", .str "http"),
        ("documentation", .str "Get Example Data"),
        ("method", .str "get"),
        ("endpoint", .str "api/example"),
        ("responses", .arr [exampleInlineResponse])]

/-- A minimal settings record. -/
def exampleGlobal : JVal :=
  .obj [("uuid", .str "133659f5-634e-4385-bf7c-0279f626d386"),
        ("name", .str "Example API"),
        ("port", .num 3000)]

/-- A ChildRef already present in a folder-definition file on disk. -/
def preexistingChildRef : JVal :=
  .obj [("type", .str "route"), ("uuid", .str "99999999-9999-4999-8999-999999999999")]

/-- A folder-definition record whose `children` list on disk is non-empty. -/
def folderDefWithChildren : JVal :=
  .obj [("uuid", .str "184807bf-4acd-4891-bada-4b47a5d8f560"),
        ("name", .str "Example Feature"),
        ("children", .arr [preexistingChildRef])]

/-- A folder-definition record with an empty `children` list on disk. -/
def folderDefEmptyChildren : JVal :=
  .obj [("uuid", .str "184807bf-4acd-4891-bada-4b47a5d8f560"),
        ("name", .str "Example Feature"),
        ("children", .arr [])]

/-- A minimal route record (a route with no `responses` key). -/
def simpleRouteA : JVal :=
  .obj [("uuid", .str "11111111-2222-3333-4444-555555555555"),
        ("method", .str "get"),
        ("endpoint", .str "api/a")]

/-- A second minimal route record. -/
def simpleRouteB : JVal :=
  .obj [("uuid", .str "66666666-7777-3888-8999-aaaaaaaaaaaa"),
        ("method", .str "post"),
        ("endpoint", .str "api/b")]

/-! ## Lookup / assignment algebra -/

theorem lookupField_setField (fs : List (String × JVal)) (k : String) (v : JVal)
    (key : String) :
    lookupField (setField fs k v) key =
      if key = k then some v else lookupField fs key := by
  induction fs with
  | nil =>
    by_cases h : key = k
    · simp [setField, lookupField, h]
    · simp [setField, lookupField, h, Ne.symm h]
  | cons p rest ih =>
    obtain ⟨k0, v0⟩ := p
    by_cases h0 : k0 = k
    · subst h0
      by_cases h : key = k0
      · simp [setField, lookupField, h]
      · simp [setField, lookupField, h, Ne.symm h]
    · by_cases h : k0 = key
      · have hne : ¬ key = k := fun hh => h0 (h.trans hh)
        simp [setField, lookupField, h0, h, hne]
      · simp [setField, lookupField, h0, h, ih]

/-- Field-by-field characterization of the assembled document: the four
computed fields win over any same-named field of the spread settings object;
every other key is looked up in the spread settings fields. -/
theorem jsGet_generateConfig (g : JVal) (folders routes buckets : List JVal)
    (key : String) :
    jsGet (generateConfig g folders routes buckets) key =
      if key = "rootChildren" then .arr (folders.map folderChildRef)
      else if key = "data" then .arr buckets
      else if key = "routes" then .arr routes
      else if key = "folders" then .arr folders
      else jsGet (.obj (spreadFields g)) key := by
  simp only [generateConfig, jsGet, lookupField_setField]
  split_ifs <;> simp

/-- `pushChild` on a folder whose `children` field holds an array appends
the reference to that array. -/
theorem pushChild_ok (fs : List (String × JVal)) (kids : List JVal) (ref : JVal)
    (hk : lookupField fs "children" = some (.arr kids)) :
    pushChild (.obj fs) ref = .ok (.obj (setField fs "children" (.arr (kids ++ [ref])))) := by
  simp [pushChild, hk]

/-- Characterization of the successful route-file loop: starting from a
folder object whose `children` field holds the array `kids`, a successful
run returns the loaded route records in file order, and the final folder's
`children` is `kids` followed by one route ChildRef per route file, in the
same order. -/
theorem processRouteFiles_ok :
    ∀ (files : List (String × JVal)) (fs : List (String × JVal)) (kids : List JVal)
      (dirName : String) (folderFin : JVal) (routes : List JVal),
      lookupField fs "children" = some (.arr kids) →
      processRouteFiles dirName (.obj fs) files = .ok (folderFin, routes) →
      routes = files.map Prod.snd ∧
        jsGet folderFin "children"
          = .arr (kids ++ files.map fun fr => routeChildRef fr.2) := by
  intro files
  induction files with
  | nil =>
    intro fs kids dirName folderFin routes hk h
    simp only [processRouteFiles, Except.ok.injEq, Prod.mk.injEq] at h
    obtain ⟨h1, h2⟩ := h
    subst h1; subst h2
    simp [jsGet, hk]
  | cons file rest ih =>
    intro fs kids dirName folderFin routes hk h
    obtain ⟨fn, r⟩ := file
    simp only [processRouteFiles] at h
    by_cases hu : (jsGet r "uuid").truthy
    · simp only [hu, Bool.not_true, Bool.false_eq_true, if_false] at h
      cases hcr : checkResponses dirName fn r with
      | error e => simp [hcr] at h
      | ok u =>
        obtain ⟨⟩ := u
        rw [hcr, pushChild_ok fs kids (routeChildRef r) hk] at h
        cases hrec : processRouteFiles dirName
            (.obj (setField fs "children" (.arr (kids ++ [routeChildRef r])))) rest with
        | error e => simp [hrec] at h
        | ok pr =>
          obtain ⟨folder1, routes1⟩ := pr
          simp only [hrec, Except.ok.injEq, Prod.mk.injEq] at h
          obtain ⟨h1, h2⟩ := h
          subst h1; subst h2
          have hk' : lookupField (setField fs "children" (.arr (kids ++ [routeChildRef r])))
              "children" = some (.arr (kids ++ [routeChildRef r])) := by
            simp [lookupField_setField]
          obtain ⟨hr1, hr2⟩ := ih _ _ dirName _ _ hk' hrec
          constructor
          · simp [hr1]
          · rw [hr2]
            simp [List.append_assoc]
    · simp [hu] at h

/-- Characterization of the successful processing of one feature directory:
when the loaded (or synthesized) folder record is an object whose
`children` field holds the array `kids`, success returns the route records
in file order and the completed folder's `children` is `kids` followed by
one `{type: "route", uuid}` ChildRef per route, in order. -/
theorem processFeatureDir_ok (fd : FeatureDir) (fs : List (String × JVal))
    (kids : List JVal) (folderFin : JVal) (routes : List JVal)
    (hobj : initialFolder fd = .obj fs)
    (hkids : lookupField fs "children" = some (.arr kids))
    (h : processFeatureDir fd = .ok (folderFin, routes)) :
    routes = fd.routeFiles.map Prod.snd ∧
      jsGet folderFin "children"
        = .arr (kids ++ fd.routeFiles.map fun fr => routeChildRef fr.2) := by
  unfold processFeatureDir at h
  rw [hobj] at h
  by_cases hu : (jsGet (.obj fs) "uuid").truthy
  · simp only [hu, Bool.not_true, Bool.false_eq_true, if_false] at h
    exact processRouteFiles_ok fd.routeFiles fs kids fd.dirName folderFin routes hkids h
  · simp [hu] at h

theorem jsize_pos (v : JVal) : 1 ≤ jsize v := by
  cases v <;> simp [jsize]

/-- Simultaneous induction: a structure with no `uuid` key anywhere along
the traversal validates silently, at every size bound. -/
theorem validateUUID_ok_of_no_uuid_aux (n : Nat) :
    (∀ v path, jsize v ≤ n → hasUuidDeep v = false → validateUUID v path = .ok ()) ∧
    (∀ xs path i, jsizeElems xs ≤ n → elemsHaveUuid xs = false →
      validateElems xs path i = .ok ()) ∧
    (∀ fs path, jsizeFields fs ≤ n → fieldsHaveUuid fs = false →
      validateFields fs path = .ok ()) := by
  induction n with
  | zero =>
    refine ⟨fun v path hs _ => absurd (le_trans (jsize_pos v) hs) (by omega), ?_, ?_⟩
    · intro xs path i hs _
      cases xs with
      | nil => rfl
      | cons x rest =>
        exfalso
        have := jsize_pos x
        simp [jsizeElems] at hs
    · intro fs path hs _
      cases fs with
      | nil => rfl
      | cons p rest =>
        exfalso
        obtain ⟨k, v⟩ := p
        have := jsize_pos v
        simp [jsizeFields] at hs
  | succ n ih =>
    refine ⟨?_, ?_, ?_⟩
    · intro v path hs hu
      cases v with
      | undef => rfl
      | null => rfl
      | bool b => cases b <;> simp [validateUUID, JVal.truthy]
      | num m => simp [validateUUID, JVal.truthy]
      | str s => simp [validateUUID, JVal.truthy]
      | arr elems =>
        have h1 : elemsHaveUuid elems = false := by simpa [hasUuidDeep] using hu
        have h2 : jsizeElems elems ≤ n := by simp [jsize] at hs; omega
        simpa [validateUUID, JVal.truthy] using ih.2.1 elems path 0 h2 h1
      | obj fields =>
        have hu' : (lookupField fields "uuid").isSome = false
            ∧ fieldsHaveUuid fields = false := by
          simpa [hasUuidDeep] using hu
        have hnone : lookupField fields "uuid" = none :=
          Option.not_isSome_iff_eq_none.mp (by simp [hu'.1])
        have h2 : jsizeFields fields ≤ n := by simp [jsize] at hs; omega
        simpa [validateUUID, JVal.truthy, hnone] using ih.2.2 fields path h2 hu'.2
    · intro xs path i hs hu
      cases xs with
      | nil => rfl
      | cons x rest =>
        have hu' : hasUuidDeep x = false ∧ elemsHaveUuid rest = false := by
          simpa [elemsHaveUuid] using hu
        have hx : jsize x ≤ n := by simp [jsizeElems] at hs; omega
        have hrest : jsizeElems rest ≤ n := by
          have := jsize_pos x
          simp [jsizeElems] at hs; omega
        have h1 := ih.1 x (path ++ "[" ++ toString i ++ "]") hx hu'.1
        simp [validateElems, h1, ih.2.1 rest path (i + 1) hrest hu'.2]
    · intro fs path hs hu
      cases fs with
      | nil => rfl
      | cons p rest =>
        obtain ⟨k, v⟩ := p
        have hrest : jsizeFields rest ≤ n := by
          have := jsize_pos v
          simp [jsizeFields] at hs; omega
        cases hdk : isDescentKey k with
        | false =>
          have hu' : fieldsHaveUuid rest = false := by
            simpa [fieldsHaveUuid, hdk] using hu
          simp [validateFields, hdk, ih.2.2 rest path hrest hu']
        | true =>
          have hu' : hasUuidDeep v = false ∧ fieldsHaveUuid rest = false := by
            simpa [fieldsHaveUuid, hdk] using hu
          have hv : jsize v ≤ n := by simp [jsizeFields] at hs; omega
          have h1 := ih.1 v (path ++ "." ++ k) hv hu'.1
          simp [validateFields, hdk, h1, ih.2.2 rest path hrest hu'.2]

/-! ## Smoke tests -/

example : kebabToTitleCase "user-profile-settings" = "User Profile Settings" := rfl

example :
    validateUUID (.obj [("uuid", .str "AAAAAAAA-BBBB-CCCC-DDDD-EEEEEEEEEEEE")]) "x"
      = .ok () := rfl

example :
    validateUUID (.obj [("uuid", .str "not-a-uuid")]) "x"
      = .error "Invalid UUID format in x: not-a-uuid" := rfl

example :
    validateUUID (.obj [("folders", .arr [.obj [("uuid", .str "")]])]) "cfg"
      = .error "Missing UUID in cfg.folders[0]" := rfl

/-! ## Claims -/

/-- C4: the Identifier Validator, applied to any object carrying a `uuid`
key, raises the missing-identifier error when the value is falsy (empty or
undefined), raises the invalid-format error (reporting the offending value)
when the value is truthy but does not match the 8-4-4-4-12 hexadecimal
pattern, and succeeds silently on a mixed-case valid hexadecimal value. -/
theorem validateUUID_uuid_key_checks :
    (∀ (fs : List (String × JVal)) (path : String) (u : JVal),
      lookupField fs "uuid" = some u → u.truthy = false →
      validateUUID (.obj fs) path = .error ("Missing UUID in " ++ path)) ∧
    (∀ (fs : List (String × JVal)) (path : String) (u : JVal),
      lookupField fs "uuid" = some u → u.truthy = true →
      isValidUUIDFormat (jsToString u) = false →
      validateUUID (.obj fs) path
        = .error ("Invalid UUID format in " ++ path ++ ": " ++ jsToString u)) ∧
    validateUUID (.obj [("uuid", .str "AAAAAAAA-BBBB-CCCC-DDDD-EEEEEEEEEEEE")]) "record"
      = .ok () := by
  refine ⟨?_, ?_, rfl⟩
  · intro fs path u h hf
    simp [validateUUID, show (JVal.obj fs).truthy = true from rfl, h, hf]
  · intro fs path u h ht hfmt
    simp [validateUUID, show (JVal.obj fs).truthy = true from rfl, h, ht, hfmt]

/-- Witness for C4 at concrete records: `uuid = ""` is missing,
`uuid = "not-a-uuid"` is invalid (value reported), the mixed-case valid
value succeeds. -/
theorem validateUUID_uuid_key_checks_witness :
    validateUUID (.obj [("uuid", .str ""), ("name", .str "r")]) "record"
      = .error "Missing UUID in record" ∧
    validateUUID (.obj [("uuid", .undef)]) "record"
      = .error "Missing UUID in record" ∧
    validateUUID (.obj [("uuid", .str "not-a-uuid")]) "record"
      = .error "Invalid UUID format in record: not-a-uuid" ∧
    validateUUID (.obj [("uuid", .str "AAAAAAAA-BBBB-CCCC-DDDD-EEEEEEEEEEEE")]) "record"
      = .ok () :=
  ⟨validateUUID_uuid_key_checks.1 [("uuid", .str ""), ("name", .str "r")] "record"
      (.str "") rfl rfl,
   validateUUID_uuid_key_checks.1 [("uuid", .undef)] "record" .undef rfl rfl,
   validateUUID_uuid_key_checks.2.1 [("uuid", .str "not-a-uuid")] "record"
      (.str "not-a-uuid") rfl rfl rfl,
   validateUUID_uuid_key_checks.2.2⟩

/-- C9: a falsy input (`undefined`, `null`, `false`, `0`, `""`) makes the
Identifier Validator return silently, and any structure carrying no `uuid`
key anywhere along the traversal validates silently — identifier checks
fire only at objects where a `uuid` key is present. -/
theorem validateUUID_silent_without_uuid_key :
    (∀ path : String,
      validateUUID .undef path = .ok () ∧
      validateUUID .null path = .ok () ∧
      validateUUID (.bool false) path = .ok () ∧
      validateUUID (.num 0) path = .ok () ∧
      validateUUID (.str "") path = .ok ()) ∧
    (∀ (v : JVal) (path : String), hasUuidDeep v = false →
      validateUUID v path = .ok ()) :=
  ⟨fun _ => ⟨rfl, rfl, rfl, rfl, rfl⟩,
   fun v path h => (validateUUID_ok_of_no_uuid_aux (jsize v)).1 v path le_rfl h⟩

/-- Witness for C9: a record without any `uuid` key (including a nested
`children` object also lacking one) validates silently. -/
theorem validateUUID_silent_without_uuid_key_witness :
    hasUuidDeep (.obj [("name", .str "x"),
      ("children", .arr [.obj [("name", .str "y")]])]) = false ∧
    validateUUID (.obj [("name", .str "x"),
      ("children", .arr [.obj [("name", .str "y")]])]) "cfg" = .ok () :=
  ⟨rfl, validateUUID_silent_without_uuid_key.2 _ "cfg" rfl⟩

/-- C5: the Global Settings Loader fails with the missing-required-file
error when the settings file is absent, fails with the missing-identifier
error (wrapped with the processing context) when the loaded object lacks a
truthy `uuid`, and otherwise returns the loaded object unchanged — no
field-level defaulting. -/
theorem processGlobalConfig_spec :
    (∀ path : String, processGlobalConfig path none
      = .error ("global.js not found at path: " ++ path)) ∧
    (∀ (path : String) (g : JVal), (jsGet g "uuid").truthy = false →
      processGlobalConfig path (some g)
        = .error "Error processing global config: Missing UUID in global config") ∧
    (∀ (path : String) (g : JVal), (jsGet g "uuid").truthy = true →
      processGlobalConfig path (some g) = .ok g) := by
  refine ⟨fun _ => rfl, ?_, ?_⟩
  · intro path g h
    simp [processGlobalConfig, h]
  · intro path g h
    simp [processGlobalConfig, h]

/-- Witness for C5: absent file, settings without `uuid`, and a valid
settings record returned unchanged (absent optional fields stay absent). -/
theorem processGlobalConfig_spec_witness :
    processGlobalConfig "/app/.tmp/src/global.js" none
      = .error "global.js not found at path: /app/.tmp/src/global.js" ∧
    processGlobalConfig "/app/.tmp/src/global.js" (some (.obj [("name", .str "API")]))
      = .error "Error processing global config: Missing UUID in global config" ∧
    processGlobalConfig "/app/.tmp/src/global.js" (some exampleGlobal)
      = .ok exampleGlobal :=
  ⟨processGlobalConfig_spec.1 _,
   processGlobalConfig_spec.2.1 _ _ rfl,
   processGlobalConfig_spec.2.2 _ _ rfl⟩

/-- C2 (divergence): a feature directory named `user-profile-settings`
without a folder-definition file makes the loader fail with the
missing-identifier error — the synthesized folder carries no freshly
generated identifier, even though the name synthesis itself matches the
claimed kebab-case → Title Case conversion. -/
theorem processFeatures_synthesized_folder_fails :
    processFeatures (some [⟨"user-profile-settings", none, []⟩])
      = .error "Missing UUID in folder config for user-profile-settings" ∧
    kebabToTitleCase "user-profile-settings" = "User Profile Settings" :=
  ⟨rfl, rfl⟩

/-- C1 (divergence): the Document Assembler places the routes in the
document exactly as given — a response with `bodyType: "INLINE"` and a
structured (object) body keeps that structured body; it is never serialized
to text. -/
theorem generateConfig_keeps_inline_body_structured :
    jsGet (generateConfig exampleGlobal [] [exampleInlineRoute] []) "routes"
      = .arr [exampleInlineRoute] ∧
    jsGet (arrIdx (jsGet (arrIdx (jsGet
        (generateConfig exampleGlobal [] [exampleInlineRoute] []) "routes") 0)
        "responses") 0) "body"
      = .obj [("message", .str "This is an example response")] ∧
    (jsGet (arrIdx (jsGet (arrIdx (jsGet
        (generateConfig exampleGlobal [] [exampleInlineRoute] []) "routes") 0)
        "responses") 0) "body").isStringVal = false :=
  ⟨rfl, rfl, rfl⟩

/-- C3 (counterexample): a folder-definition file whose `children` list on
disk is non-empty keeps those children — the loader appends the route
ChildRefs after them, so the output children list is not populated solely
by the loader. -/
theorem processFeatures_preserves_disk_children :
    processFeatures (some [⟨"example-feature", some folderDefWithChildren,
        [("get.js", simpleRouteA)]⟩])
      = .ok ([.obj [("uuid", .str "184807bf-4acd-4891-bada-4b47a5d8f560"),
                    ("name", .str "Example Feature"),
                    ("children", .arr [preexistingChildRef, routeChildRef simpleRouteA])]],
             [simpleRouteA]) ∧
    JVal.arr [preexistingChildRef, routeChildRef simpleRouteA]
      ≠ JVal.arr [routeChildRef simpleRouteA] := by
  refine ⟨rfl, ?_⟩
  intro h
  simp [preexistingChildRef, routeChildRef] at h

/-- C3 (amended): when a folder-definition file exists and its `children`
field holds an array, the loader preserves that array and appends one route
ChildRef per discovered route file after it, in file order. -/
theorem processFeatureDir_appends_after_disk_children :
    ∀ (fd : FeatureDir) (fs : List (String × JVal)) (kids : List JVal)
      (folderFin : JVal) (routes : List JVal),
      fd.folderDef = some (.obj fs) →
      lookupField fs "children" = some (.arr kids) →
      processFeatureDir fd = .ok (folderFin, routes) →
      jsGet folderFin "children"
        = .arr (kids ++ fd.routeFiles.map fun fr => routeChildRef fr.2) := by
  intro fd fs kids folderFin routes hdef hkids h
  have hobj : initialFolder fd = .obj fs := by simp [initialFolder, hdef]
  exact (processFeatureDir_ok fd fs kids folderFin routes hobj hkids h).2

/-- Witness for the amended C3 at a concrete directory: the disk child is
preserved as a prefix, the route ChildRef appended after it. -/
theorem processFeatureDir_appends_after_disk_children_witness :
    jsGet (.obj [("uuid", .str "184807bf-4acd-4891-bada-4b47a5d8f560"),
                 ("name", .str "Example Feature"),
                 ("children", .arr [preexistingChildRef, routeChildRef simpleRouteB])])
        "children"
      = .arr [preexistingChildRef, routeChildRef simpleRouteB] :=
  processFeatureDir_appends_after_disk_children
    ⟨"users", some folderDefWithChildren, [("list.js", simpleRouteB)]⟩
    [("uuid", .str "184807bf-4acd-4891-bada-4b47a5d8f560"),
     ("name", .str "Example Feature"),
     ("children", .arr [preexistingChildRef])]
    [preexistingChildRef] _ [simpleRouteB] rfl rfl rfl

/-- C6: the assembled document's `folders`, `routes`, `data` arrays are
exactly the given lists (so their lengths are N, M, K), and `rootChildren`
is one `{type: "folder", uuid}` per folder, in folder-list order, so it has
length N. -/
theorem generateConfig_shape :
    ∀ (g : JVal) (folders routes buckets : List JVal),
      jsGet (generateConfig g folders routes buckets) "folders" = .arr folders ∧
      jsGet (generateConfig g folders routes buckets) "routes" = .arr routes ∧
      jsGet (generateConfig g folders routes buckets) "data" = .arr buckets ∧
      jsGet (generateConfig g folders routes buckets) "rootChildren"
        = .arr (folders.map fun f =>
            .obj [("type", .str "folder"), ("uuid", jsGet f "uuid")]) ∧
      (folders.map fun f =>
        JVal.obj [("type", .str "folder"), ("uuid", jsGet f "uuid")]).length
        = folders.length := by
  intro g folders routes buckets
  refine ⟨?_, ?_, ?_, ?_, by simp⟩ <;> simp [jsGet_generateConfig, folderChildRef]

/-- C7: on success, every route file contributes its loaded record to the
route list in file order, and the ChildRef appended for it to the folder's
children has `type = "route"` and `uuid` equal to the route's own `uuid`,
in the same order. -/
theorem processFeatureDir_route_refs :
    ∀ (fd : FeatureDir) (fs : List (String × JVal)) (kids : List JVal)
      (folderFin : JVal) (routes : List JVal),
      initialFolder fd = .obj fs →
      lookupField fs "children" = some (.arr kids) →
      processFeatureDir fd = .ok (folderFin, routes) →
      routes = fd.routeFiles.map Prod.snd ∧
      jsGet folderFin "children"
        = .arr (kids ++ routes.map fun r =>
            .obj [("type", .str "route"), ("uuid", jsGet r "uuid")]) := by
  intro fd fs kids folderFin routes hobj hkids h
  obtain ⟨h1, h2⟩ := processFeatureDir_ok fd fs kids folderFin routes hobj hkids h
  refine ⟨h1, ?_⟩
  rw [h2, h1, List.map_map]
  rfl

/-- Witness for C7 at a concrete directory with two route files: routes in
file order, one route-typed ChildRef per route carrying its `uuid`. -/
theorem processFeatureDir_route_refs_witness :
    [simpleRouteA, simpleRouteB]
      = [("get.js", simpleRouteA), ("post.js", simpleRouteB)].map Prod.snd ∧
    jsGet (.obj [("uuid", .str "184807bf-4acd-4891-bada-4b47a5d8f560"),
                 ("name", .str "Example Feature"),
                 ("children", .arr [routeChildRef simpleRouteA, routeChildRef simpleRouteB])])
        "children"
      = .arr ([] ++ [simpleRouteA, simpleRouteB].map fun r =>
          .obj [("type", .str "route"), ("uuid", jsGet r "uuid")]) :=
  processFeatureDir_route_refs
    ⟨"payments", some folderDefEmptyChildren,
      [("get.js", simpleRouteA), ("post.js", simpleRouteB)]⟩
    [("uuid", .str "184807bf-4acd-4891-bada-4b47a5d8f560"),
     ("name", .str "Example Feature"),
     ("children", .arr [])]
    [] _ [simpleRouteA, simpleRouteB] rfl rfl rfl

/-- C8: absent `features` and `data` directories yield empty folder, route
and bucket lists (not an error), and the resulting document has empty
`folders`, `routes`, `data` and `rootChildren`. -/
theorem emptyTree_document_empty :
    processFeatures none = .ok ([], []) ∧
    processData none = .ok [] ∧
    ∀ g : JVal,
      jsGet (generateConfig g [] [] []) "folders" = .arr [] ∧
      jsGet (generateConfig g [] [] []) "routes" = .arr [] ∧
      jsGet (generateConfig g [] [] []) "data" = .arr [] ∧
      jsGet (generateConfig g [] [] []) "rootChildren" = .arr [] := by
  refine ⟨rfl, rfl, fun g => ⟨?_, ?_, ?_, ?_⟩⟩ <;> simp [jsGet_generateConfig]

/-- C10: every top-level settings field other than `folders`, `routes`,
`data`, `rootChildren` appears unchanged in the assembled document, while
those four always hold the computed values, overriding any same-named
fields of the settings object. -/
theorem generateConfig_frame_and_override :
    ∀ (gfs : List (String × JVal)) (folders routes buckets : List JVal),
      (∀ key : String, key ≠ "folders" → key ≠ "routes" → key ≠ "data" →
        key ≠ "rootChildren" →
        jsGet (generateConfig (.obj gfs) folders routes buckets) key
          = jsGet (.obj gfs) key) ∧
      jsGet (generateConfig (.obj gfs) folders routes buckets) "folders"
        = .arr folders ∧
      jsGet (generateConfig (.obj gfs) folders routes buckets) "routes"
        = .arr routes ∧
      jsGet (generateConfig (.obj gfs) folders routes buckets) "data"
        = .arr buckets ∧
      jsGet (generateConfig (.obj gfs) folders routes buckets) "rootChildren"
        = .arr (folders.map folderChildRef) := by
  intro gfs folders routes buckets
  refine ⟨?_, ?_, ?_, ?_, ?_⟩
  · intro key h1 h2 h3 h4
    simp [jsGet_generateConfig, h1, h2, h3, h4, spreadFields]
  all_goals simp [jsGet_generateConfig]

/-- Witness for C10: a settings object carrying `name`, `port` and a stale
`folders` field — `name` and `port` pass through unchanged, the stale
`folders` is overridden by the computed folder list. -/
theorem generateConfig_frame_and_override_witness :
    jsGet (generateConfig
        (.obj [("name", .str "My API"), ("folders", .str "stale"), ("port", .num 3000)])
        [folderDefEmptyChildren] [] []) "name"
      = .str "My API" ∧
    jsGet (generateConfig
        (.obj [("name", .str "My API"), ("folders", .str "stale"), ("port", .num 3000)])
        [folderDefEmptyChildren] [] []) "port"
      = .num 3000 ∧
    jsGet (generateConfig
        (.obj [("name", .str "My API"), ("folders", .str "stale"), ("port", .num 3000)])
        [folderDefEmptyChildren] [] []) "folders"
      = .arr [folderDefEmptyChildren] :=
  ⟨((generateConfig_frame_and_override
      [("name", .str "My API"), ("folders", .str "stale"), ("port", .num 3000)]
      [folderDefEmptyChildren] [] []).1 "name"
      (by decide) (by decide) (by decide) (by decide)).trans rfl,
   ((generateConfig_frame_and_override
      [("name", .str "My API"), ("folders", .str "stale"), ("port", .num 3000)]
      [folderDefEmptyChildren] [] []).1 "port"
      (by decide) (by decide) (by decide) (by decide)).trans rfl,
   (generateConfig_frame_and_override
      [("name", .str "My API"), ("folders", .str "stale"), ("port", .num 3000)]
      [folderDefEmptyChildren] [] []).2.1⟩

end Mockoon
